import Mathlib

/-!
Shallow embedding of `src/tools/market_data.py` (repository Equity-Agent).

Numeric modelling: Python floats are modelled as exact rationals (ℚ).
Python `round(x, n)` and the `:.2f` / `:,.0f` format specifiers round
half-to-even; `rndHE` implements that exactly on ℚ.  Python ints are
modelled as ℤ; the conversion `float(int)` raises OverflowError once the
magnitude leaves double range, modelled by the threshold `2 ^ 1024`.
-/

namespace MarketData

/- The Batteries rational arithmetic is marked irreducible, which even
blocks `decide` on closed goals; restore default reducibility so that
concrete witnesses evaluate.  This affects elaboration only — the
kernel never respects reducibility annotations. -/
set_option allowUnsafeReducibility true
attribute [local semireducible] Rat.mul Rat.inv Rat.add Rat.sub Rat.ofScientific

/-- Round half-to-even to the nearest integer (Python `round`). -/
def rndHE (q : ℚ) : ℤ :=
  let f := ⌊q⌋
  let r := q - f
  if r < 1 / 2 then f
  else if r > 1 / 2 then f + 1
  else if f % 2 = 0 then f else f + 1

/-- Python `round(q, 2)`: round half-to-even at the second decimal. -/
def round2 (q : ℚ) : ℚ := (rndHE (q * 100) : ℚ) / 100

/-- Two decimal digits, left padded with a zero. -/
def natPad2 (n : ℕ) : String := if n < 10 then "0" ++ toString n else toString n

/-- Python `f"{q:.2f}"`: fixed two-decimal rendering of a float. -/
def fmt2 (q : ℚ) : String :=
  let k := rndHE (q * 100)
  let sign := if k < 0 then "-" else ""
  let a := k.natAbs
  sign ++ toString (a / 100) ++ "." ++ natPad2 (a % 100)

/-- Insert a comma after every third digit; the input is the reversed
digit list of the integer part. -/
def commasAux : ℕ → List Char → List Char
  | _, [] => []
  | 0, c :: cs => ',' :: c :: commasAux 2 cs
  | k + 1, c :: cs => c :: commasAux k cs

/-- Python `f"{q:,.0f}"`: round to an integer, thousands separated. -/
def commaFmt (q : ℚ) : String :=
  let k := rndHE q
  let sign := if k < 0 then "-" else ""
  let digits := (toString k.natAbs).data
  sign ++ String.mk (commasAux 3 digits.reverse).reverse

/-- Python `str.strip()`: drop leading and trailing whitespace.
(Structural recursion over the character list; `String.trim` itself is
not kernel-reducible.) -/
def pyStrip (s : String) : String :=
  String.mk (((s.data.dropWhile Char.isWhitespace).reverse.dropWhile
    Char.isWhitespace).reverse)

/-- Python `str.upper()`. -/
def pyUpper (s : String) : String := String.mk (s.data.map Char.toUpper)

/-- Accumulate a run of decimal digits: value, digit count, rest. -/
def takeDigits : ℕ → ℕ → List Char → ℕ × ℕ × List Char
  | acc, cnt, [] => (acc, cnt, [])
  | acc, cnt, c :: cs =>
    if c.isDigit then takeDigits (10 * acc + (c.toNat - 48)) (cnt + 1) cs
    else (acc, cnt, c :: cs)

/-- Optional exponent part of a float literal (after the mantissa). -/
def parseExp (m : ℚ) : List Char → Option ℚ
  | [] => some m
  | 'e' :: r =>
    let (sgnNeg, r1) : Bool × List Char :=
      match r with
      | '-' :: r2 => (true, r2)
      | '+' :: r2 => (false, r2)
      | r2 => (false, r2)
    let (ev, ec, r2) := takeDigits 0 0 r1
    if ec = 0 then none
    else if r2 = [] then some (if sgnNeg then m / 10 ^ ev else m * 10 ^ ev)
    else none
  | 'E' :: r =>
    let (sgnNeg, r1) : Bool × List Char :=
      match r with
      | '-' :: r2 => (true, r2)
      | '+' :: r2 => (false, r2)
      | r2 => (false, r2)
    let (ev, ec, r2) := takeDigits 0 0 r1
    if ec = 0 then none
    else if r2 = [] then some (if sgnNeg then m / 10 ^ ev else m * 10 ^ ev)
    else none
  | _ => none

/-- Python `float(s)` on decimal literals: optional surrounding
whitespace, optional sign, digits with an optional point, optional
exponent.  (The `inf` / `nan` spellings and digit underscores accepted
by CPython are outside the model; no claim exercises them.) -/
def parseFloat (s : String) : Option ℚ :=
  let cs := (pyStrip s).data
  let (sgn, cs1) : ℚ × List Char :=
    match cs with
    | '-' :: r => (-1, r)
    | '+' :: r => (1, r)
    | r => (1, r)
  let (ip, ic, cs2) := takeDigits 0 0 cs1
  match cs2 with
  | '.' :: r =>
    let (fp, fc, cs3) := takeDigits 0 0 r
    if ic + fc = 0 then none
    else parseExp (sgn * ((ip : ℚ) + (fp : ℚ) / 10 ^ fc)) cs3
  | rest =>
    if ic = 0 then none else parseExp (sgn * (ip : ℚ)) rest

/-- The magnitude tiers of `format_market_cap` on an already converted
float value (the body after `val = float(val)` succeeded). -/
def formatNum (v : ℚ) : String :=
  if v ≥ 10 ^ 12 then "$" ++ fmt2 (v / 10 ^ 12) ++ "T"
  else if v ≥ 10 ^ 9 then "$" ++ fmt2 (v / 10 ^ 9) ++ "B"
  else if v ≥ 10 ^ 6 then "$" ++ fmt2 (v / 10 ^ 6) ++ "M"
  else "$" ++ commaFmt v

/-- The value domain of `format_market_cap`: `None`, a float NaN, a
finite float, a Python int, or a string. -/
inductive FVal where
  | none
  | nan
  | num (q : ℚ)
  | int (n : ℤ)
  | str (s : String)
deriving DecidableEq

/-- The one exception the formatter can let escape: `float(int)` on an
int outside double range raises OverflowError, which the
`except (ValueError, TypeError)` clause does not catch. -/
inductive PyErr where
  | overflow
deriving DecidableEq

instance {ε α : Type} [DecidableEq ε] [DecidableEq α] : DecidableEq (Except ε α)
  | .error a, .error b =>
    if h : a = b then isTrue (by rw [h])
    else isFalse (by intro hc; cases hc; exact h rfl)
  | .error _, .ok _ => isFalse (by intro hc; cases hc)
  | .ok _, .error _ => isFalse (by intro hc; cases hc)
  | .ok a, .ok b =>
    if h : a = b then isTrue (by rw [h])
    else isFalse (by intro hc; cases hc; exact h rfl)

/-- `format_market_cap` from `src/tools/market_data.py`.  `.error`
means the Python function raises.  On `.nan` every tier comparison is
false and the final f-string prints `$nan`. -/
def format_market_cap : FVal → Except PyErr String
  | .none => .ok "N/A"
  | .nan => .ok "$nan"
  | .num q => .ok (formatNum q)
  | .int n => if 2 ^ 1024 ≤ n.natAbs then .error .overflow else .ok (formatNum (n : ℚ))
  | .str s =>
    if s = "N/A" then .ok "N/A"
    else
      match parseFloat s with
      | some q => .ok (formatNum q)
      | Option.none => .ok s

/-! ## The fetcher `fetch_market_data`

The upstream provider (`yfinance`) is modelled as the outcome of its two
queries: the metadata mapping `stock.info` (string keys to numbers) and
the 6-month close series `stock.history(period="6mo")['Close']`
(OHLC columns other than Close are never read).  `.error e` stands for
the query raising an exception with message `e`. -/

/-- Outcome of the two upstream queries for one invocation. -/
structure Provider where
  infoResult : Except String (List (String × ℚ))
  histResult : Except String (List ℚ)

/-- Values occurring in the returned record. -/
inductive PyVal where
  | num (q : ℚ)
  | str (s : String)
  | df (closes : List ℚ)
deriving DecidableEq

/-- Python `ticker.upper().strip()`. -/
def normTicker (t : String) : String := pyStrip (pyUpper t)

/-- Pandas `hist['Close'].pct_change()`: first entry NaN (`Option.none`),
then `cur / prev - 1`.  A zero previous close makes the change undefined
(infinite or NaN in pandas), also modelled as `Option.none`; either way
the enclosing rolling standard deviation degenerates to NaN. -/
def pctChange (closes : List ℚ) : List (Option ℚ) :=
  match closes with
  | [] => []
  | _ :: _ =>
    Option.none ::
      List.zipWith
        (fun prev cur => if prev = 0 then Option.none else some (cur / prev - 1))
        closes closes.tail

/-- The last `w` entries of a list (the window `rolling(window=w)`
inspects at the final index). -/
def lastWindow (w : ℕ) (xs : List (Option ℚ)) : List (Option ℚ) :=
  xs.drop (xs.length - w)

/-- Sample variance (`ddof=1`, as pandas `rolling(...).std()` uses). -/
def sampleVar (xs : List ℚ) : ℚ :=
  let n : ℚ := xs.length
  let m := xs.sum / n
  (xs.map (fun x => (x - m) ^ 2)).sum / (n - 1)

/-- `⌊√q⌋` for a nonnegative rational, by exact integer arithmetic. -/
def floorSqrtQ (q : ℚ) : ℕ := Nat.sqrt (q.num.toNat * q.den) / q.den

/-- `round(std(xs) * 100, 2)` computed exactly: the square root of the
sample variance is taken as an exact real and rounded at the 2-decimal
grid (half-up; an exact tie against an irrational root cannot occur).
Models `...rolling(window=30).std().iloc[-1] * 100` followed by
`round(·, 2)`. -/
def stdTimes100R2 (xs : List ℚ) : ℚ :=
  (((floorSqrtQ ((4 * 10 ^ 8) * sampleVar xs) + 1) / 2 : ℕ) : ℚ) / 100

/-- `hist['Close'].pct_change().rolling(window=30).std().iloc[-1] * 100`
rounded to 2 decimals; `Option.none` is pandas NaN (a window with fewer
than 30 defined percentage changes). -/
def vol30 (closes : List ℚ) : Option ℚ :=
  let w := lastWindow 30 (pctChange closes)
  if w.length = 30 ∧ w.all Option.isSome then some (stdTimes100R2 (w.filterMap id))
  else Option.none

/-- The `volatility` local of `fetch_market_data` (already rounded;
`round(0.0, 2) = 0.0`). -/
def volRaw (closes : List ℚ) : Option ℚ :=
  if closes.length ≥ 30 then vol30 closes else some 0

/-- The `volatility_30d` payload entry:
`round(volatility, 2) if pd.notnull(volatility) else "N/A"`. -/
def volField (closes : List ℚ) : PyVal :=
  match volRaw closes with
  | some v => .num v
  | Option.none => .str "N/A"

/-- `round(info.get(k, 0), 2) if info.get(k) else 'N/A'` — the shape of
the `pe_ratio`, `forward_pe` and `debt_to_equity` entries.  Python
truthiness: a missing key (`None`) and a present `0` are both falsy. -/
def ratioField (o : Option ℚ) : PyVal :=
  match o with
  | some v => if v = 0 then .str "N/A" else .num (round2 v)
  | Option.none => .str "N/A"

/-- Python `str(float)` of a value already rounded to 2 decimals:
minimal decimal digits, at least one fractional digit. -/
def renderRound2 (q : ℚ) : String :=
  let k := rndHE (q * 100)
  let sign := if k < 0 then "-" else ""
  let a := k.natAbs
  let fr := a % 100
  sign ++ toString (a / 100) ++ "." ++
    (if fr % 10 = 0 then toString (fr / 10) else natPad2 fr)

/-- `f"{round(info.get(k, 0) * 100, 2)}%" if info.get(k) else 'N/A'` —
the shape of the `revenue_growth`, `profit_margins` and
`return_on_equity` entries. -/
def pctField (o : Option ℚ) : PyVal :=
  match o with
  | some v => if v = 0 then .str "N/A" else .str (renderRound2 (v * 100) ++ "%")
  | Option.none => .str "N/A"

/-- Lift a metadata lookup into the formatter value domain
(`info.get(k)` is `None` or the stored number). -/
def fvalOfOpt : Option ℚ → FVal
  | Option.none => .none
  | some q => .num q

/-- Unwrap the formatter result inside the fetcher.  On the inputs the
fetcher passes (None or a finite number) the formatter never raises, so
the `.error` arm is unreachable; its value is arbitrary. -/
def exceptStr : Except PyErr String → String
  | .ok s => s
  | .error _ => "OverflowError"

/-- `format_market_cap(info.get(k))` — the shape of the `market_cap`
and `free_cash_flow` entries. -/
def mcapField (o : Option ℚ) : PyVal :=
  .str (exceptStr (format_market_cap (fvalOfOpt o)))

/-- The success payload of `fetch_market_data` (the dict literal built
when history is non-empty), with entries in source order.
`closes.getLastD 0` models `hist['Close'].iloc[-1]`; the branch only
runs on a non-empty history, where the default is never used. -/
def successRecord (t : String) (info : List (String × ℚ)) (closes : List ℚ) :
    List (String × PyVal) :=
  [ ("ticker", PyVal.str t),
    ("current_price", PyVal.num (round2 (closes.getLastD 0))),
    ("volatility_30d", volField closes),
    ("market_cap", mcapField (info.lookup "marketCap")),
    ("pe_ratio", ratioField (info.lookup "trailingPE")),
    ("forward_pe", ratioField (info.lookup "forwardPE")),
    ("revenue_growth", pctField (info.lookup "revenueGrowth")),
    ("profit_margins", pctField (info.lookup "profitMargins")),
    ("debt_to_equity", ratioField (info.lookup "debtToEquity")),
    ("free_cash_flow", mcapField (info.lookup "freeCashflow")),
    ("return_on_equity", pctField (info.lookup "returnOnEquity")),
    ("history_df", PyVal.df closes) ]

/-- `fetch_market_data` from `src/tools/market_data.py`.  The returned
association list models the Python dict (insertion ordered, keys
unique).  The inner bare `except` turns a metadata failure into an
empty `info`; a history failure reaches the outer
`except Exception as e` and becomes the error record.  All later
computation is pure, so the embedding is total: no exception escapes. -/
def fetch_market_data (ticker : String) (p : Provider) : List (String × PyVal) :=
  let t := normTicker ticker
  match p.histResult with
  | .error e => [("error", PyVal.str ("Market data fetch failed: " ++ e))]
  | .ok closes =>
    if closes.isEmpty then
      [("error", PyVal.str ("No price data available for ticker: " ++ t))]
    else
      let info := match p.infoResult with
        | .ok i => i
        | .error _ => []
      successRecord t info closes

/-! ## Helper lemmas -/

theorem pctChange_length (closes : List ℚ) :
    (pctChange closes).length = closes.length := by
  cases closes with
  | nil => rfl
  | cons c cs =>
    simp [pctChange, List.length_zipWith]

theorem isEmpty_false_of_ne_nil {closes : List ℚ} (hne : closes ≠ []) :
    closes.isEmpty = false := by
  cases closes with
  | nil => exact absurd rfl hne
  | cons c cs => rfl

theorem fetch_success_eq (t : String) (p : Provider) (info : List (String × ℚ))
    (closes : List ℚ) (hinfo : p.infoResult = Except.ok info)
    (hh : p.histResult = Except.ok closes) (hne : closes ≠ []) :
    fetch_market_data t p = successRecord (normTicker t) info closes := by
  simp [fetch_market_data, hh, hinfo, isEmpty_false_of_ne_nil hne]

/-! ## Claims about the magnitude formatter -/

/-- Claim C2, counterexample: the non-numeric string "abc" is returned
unchanged by `format_market_cap` (the `except` branch returns
`str(val)`), not mapped to the "N/A" sentinel as claimed. -/
theorem format_nonnumeric_string_cx :
    format_market_cap (FVal.str "abc") = Except.ok "abc" ∧ "abc" ≠ "N/A" := by
  decide

/-- Claim C2 (amended): `None` and the sentinel "N/A" map to "N/A"; a
string that does not parse as a number is returned unchanged (as the
string itself, via `str(val)`), and none of these inputs raises. -/
theorem format_nonnumeric_passthrough (s : String) :
    format_market_cap FVal.none = Except.ok "N/A" ∧
    format_market_cap (FVal.str "N/A") = Except.ok "N/A" ∧
    (s ≠ "N/A" → parseFloat s = Option.none →
      format_market_cap (FVal.str s) = Except.ok s) := by
  refine ⟨rfl, by decide, ?_⟩
  intro hs hp
  simp only [format_market_cap]
  rw [if_neg hs, hp]

/-- Claim C2 witness at the concrete non-numeric string "hello". -/
theorem format_nonnumeric_passthrough_witness :
    format_market_cap (FVal.str "hello") = Except.ok "hello" :=
  (format_nonnumeric_passthrough "hello").2.2 (by decide) (by decide)

/-- Claim C5: the magnitude tiers of `format_market_cap` — the "T",
"B" and "M" suffixes with two-decimal rounding at the thresholds
`1e12`, `1e9`, `1e6`, the thousands-separated rendering below `1e6`,
and a numeric string formatting exactly like the number it encodes. -/
theorem format_magnitude_tiers (v : ℚ) (s : String) :
    (10 ^ 12 ≤ v →
      format_market_cap (FVal.num v) = Except.ok ("$" ++ fmt2 (v / 10 ^ 12) ++ "T")) ∧
    (10 ^ 9 ≤ v → v < 10 ^ 12 →
      format_market_cap (FVal.num v) = Except.ok ("$" ++ fmt2 (v / 10 ^ 9) ++ "B")) ∧
    (10 ^ 6 ≤ v → v < 10 ^ 9 →
      format_market_cap (FVal.num v) = Except.ok ("$" ++ fmt2 (v / 10 ^ 6) ++ "M")) ∧
    (v < 10 ^ 6 → format_market_cap (FVal.num v) = Except.ok ("$" ++ commaFmt v)) ∧
    (parseFloat s = some v →
      format_market_cap (FVal.str s) = format_market_cap (FVal.num v)) := by
  refine ⟨?_, ?_, ?_, ?_, ?_⟩
  · intro h1
    simp only [format_market_cap, formatNum]
    rw [if_pos h1]
  · intro h1 h2
    simp only [format_market_cap, formatNum]
    rw [if_neg (not_le.mpr h2), if_pos h1]
  · intro h1 h2
    simp only [format_market_cap, formatNum]
    rw [if_neg (not_le.mpr (lt_of_lt_of_le h2 (by norm_num))), if_neg (not_le.mpr h2),
      if_pos h1]
  · intro h1
    simp only [format_market_cap, formatNum]
    rw [if_neg (not_le.mpr (lt_of_lt_of_le h1 (by norm_num))),
      if_neg (not_le.mpr (lt_of_lt_of_le h1 (by norm_num))), if_neg (not_le.mpr h1)]
  · intro hp
    by_cases hs : s = "N/A"
    · subst hs
      have hna : parseFloat "N/A" = Option.none := by decide
      rw [hna] at hp
      cases hp
    · simp only [format_market_cap]
      rw [if_neg hs, hp]

/-- Claim C5 witness: `2_500_000_000_000` lands in the "T" tier, and
the numeric string "2500000000000" formats identically to the number. -/
theorem format_magnitude_tiers_witness :
    format_market_cap (FVal.num (25 * 10 ^ 11)) =
      Except.ok ("$" ++ fmt2 ((25 * 10 ^ 11 : ℚ) / 10 ^ 12) ++ "T") ∧
    format_market_cap (FVal.str "2500000000000") =
      format_market_cap (FVal.num (25 * 10 ^ 11)) :=
  ⟨(format_magnitude_tiers (25 * 10 ^ 11) "").1 (by norm_num),
   (format_magnitude_tiers (25 * 10 ^ 11) "2500000000000").2.2.2.2
     (by decide)⟩

set_option maxRecDepth 4000 in
/-- Claim C8, counterexample: `format_market_cap(10 ** 400)` raises —
`float()` on an int beyond double range raises OverflowError, which the
`except (ValueError, TypeError)` clause does not catch. -/
theorem format_int_overflow_cx :
    format_market_cap (FVal.int (10 ^ 400)) = Except.error PyErr.overflow := by
  simp only [format_market_cap]
  rw [if_pos]
  norm_num

/-- Claim C8 (amended): on every modelled input except a Python int
outside double range (those raise OverflowError), the formatter returns
a string; this covers `None`, NaN, finite numbers, in-range ints and
arbitrary strings. -/
theorem format_total_on_safe_inputs (x : FVal)
    (hx : ∀ n : ℤ, x = FVal.int n → n.natAbs < 2 ^ 1024) :
    ∃ s : String, format_market_cap x = Except.ok s := by
  cases x with
  | none => exact ⟨"N/A", rfl⟩
  | nan => exact ⟨"$nan", rfl⟩
  | num q => exact ⟨formatNum q, rfl⟩
  | int n =>
    refine ⟨formatNum (n : ℚ), ?_⟩
    simp only [format_market_cap]
    rw [if_neg (not_le.mpr (hx n rfl))]
  | str s =>
    by_cases hs : s = "N/A"
    · subst hs
      exact ⟨"N/A", rfl⟩
    · cases hp : parseFloat s with
      | none =>
        refine ⟨s, ?_⟩
        simp only [format_market_cap]
        rw [if_neg hs, hp]
      | some q =>
        refine ⟨formatNum q, ?_⟩
        simp only [format_market_cap]
        rw [if_neg hs, hp]

/-- Claim C8 witness at the NaN input. -/
theorem format_total_on_safe_inputs_witness :
    ∃ s : String, format_market_cap FVal.nan = Except.ok s :=
  format_total_on_safe_inputs FVal.nan (fun n h => by cases h)

/-! ## Claims about the fetcher -/

/-- Claim C1, counterexample: a history of exactly 30 rows makes
`volatility_30d` the sentinel "N/A", not a number — the 30-wide rolling
window at the last index still contains the undefined first percentage
change, so the rolling standard deviation is NaN. -/
theorem volatility_thirty_rows_cx :
    (List.replicate 30 (1 : ℚ)).length = 30 ∧
    (fetch_market_data "T" ⟨Except.ok [], Except.ok (List.replicate 30 1)⟩).lookup
        "volatility_30d" = some (PyVal.str "N/A") ∧
    ∀ q : ℚ, PyVal.str "N/A" ≠ PyVal.num q := by
  refine ⟨by decide, by decide, ?_⟩
  intro q h
  exact PyVal.noConfusion h

/-- Claim C1 (amended): fewer than 30 rows always yield `0.0`; exactly
30 rows yield the sentinel "N/A" (NaN from the initial undefined
change); 31 or more rows with all window changes defined yield the
sample standard deviation of the trailing 30 daily percentage changes,
times 100, rounded to 2 decimals. -/
theorem volatility_gating_amended (closes : List ℚ) :
    (closes.length < 30 → volField closes = PyVal.num 0) ∧
    (closes.length = 30 → volField closes = PyVal.str "N/A") ∧
    (31 ≤ closes.length →
      (lastWindow 30 (pctChange closes)).all Option.isSome = true →
      volField closes =
        PyVal.num (stdTimes100R2 ((lastWindow 30 (pctChange closes)).filterMap id))) := by
  refine ⟨?_, ?_, ?_⟩
  · intro h
    unfold volField volRaw
    rw [if_neg (by omega)]
  · intro h
    unfold volField volRaw
    rw [if_pos (by omega)]
    unfold vol30
    have hw : lastWindow 30 (pctChange closes) = pctChange closes := by
      unfold lastWindow
      rw [pctChange_length, h]
      simp
    rw [hw]
    cases closes with
    | nil => simp at h
    | cons c cs =>
      have hnc : ¬((pctChange (c :: cs)).length = 30 ∧
          (pctChange (c :: cs)).all Option.isSome = true) := by
        rintro ⟨-, hall⟩
        simp [pctChange] at hall
      rw [if_neg hnc]
  · intro h hall
    unfold volField volRaw
    rw [if_pos (by omega)]
    unfold vol30
    have h30 : (lastWindow 30 (pctChange closes)).length = 30 := by
      unfold lastWindow
      rw [List.length_drop, pctChange_length]
      omega
    rw [if_pos ⟨h30, hall⟩]

/-- Claim C1 witness: 31 constant closes give 30 zero percentage
changes, hence volatility `0.00`, a genuine number. -/
theorem volatility_gating_amended_witness :
    volField (List.replicate 31 1) =
      PyVal.num (stdTimes100R2
        ((lastWindow 30 (pctChange (List.replicate 31 1))).filterMap id)) :=
  (volatility_gating_amended (List.replicate 31 1)).2.2 (by decide) (by decide)

/-- Claim C3: the fetcher is total — for every ticker and every provider
behaviour it returns a record — and an exception reaching the outer
handler (the history query raising) is converted into the error record
with a human-readable message.  A metadata exception is swallowed by
the inner bare `except` and handled per claim C7. -/
theorem fetch_never_raises (t : String) (p : Provider) :
    (∃ r : List (String × PyVal), fetch_market_data t p = r) ∧
    (∀ e, p.histResult = Except.error e →
      (fetch_market_data t p).lookup "error" =
        some (PyVal.str ("Market data fetch failed: " ++ e))) := by
  refine ⟨⟨_, rfl⟩, ?_⟩
  intro e he
  simp [fetch_market_data, he]

/-- Claim C3 witness: a concrete provider whose history query raises. -/
theorem fetch_never_raises_witness :
    (fetch_market_data "t" ⟨Except.ok [], Except.error "boom"⟩).lookup "error" =
      some (PyVal.str ("Market data fetch failed: " ++ "boom")) :=
  (fetch_never_raises "t" ⟨Except.ok [], Except.error "boom"⟩).2 "boom" rfl

/-- Claim C4: an empty 6-month history makes the fetcher return the
record whose only entry is the descriptive error message; nothing else
is computed. -/
theorem empty_history_error_only (t : String) (p : Provider)
    (h : p.histResult = Except.ok []) :
    fetch_market_data t p =
      [("error", PyVal.str ("No price data available for ticker: " ++ normTicker t))] := by
  simp [fetch_market_data, h]

/-- Claim C4 witness at a concrete ticker and provider. -/
theorem empty_history_error_only_witness :
    fetch_market_data "t" ⟨Except.ok [], Except.ok []⟩ =
      [("error", PyVal.str ("No price data available for ticker: " ++ normTicker "t"))] :=
  empty_history_error_only "t" ⟨Except.ok [], Except.ok []⟩ rfl

/-- Claim C6: on the success path each of the three fundamental ratio
fields is built by `ratioField` from its metadata key, and `ratioField`
maps a missing value and a present zero both to the sentinel "N/A",
while a present nonzero value is rounded to 2 decimals. -/
theorem ratio_zero_vs_missing (t : String) (p : Provider) (info : List (String × ℚ))
    (closes : List ℚ) (hinfo : p.infoResult = Except.ok info)
    (hh : p.histResult = Except.ok closes) (hne : closes ≠ []) :
    (fetch_market_data t p).lookup "pe_ratio" =
      some (ratioField (info.lookup "trailingPE")) ∧
    (fetch_market_data t p).lookup "forward_pe" =
      some (ratioField (info.lookup "forwardPE")) ∧
    (fetch_market_data t p).lookup "debt_to_equity" =
      some (ratioField (info.lookup "debtToEquity")) ∧
    ratioField Option.none = PyVal.str "N/A" ∧
    ratioField (some 0) = PyVal.str "N/A" ∧
    ∀ v : ℚ, v ≠ 0 → ratioField (some v) = PyVal.num (round2 v) := by
  rw [fetch_success_eq t p info closes hinfo hh hne]
  refine ⟨rfl, rfl, rfl, rfl, rfl, ?_⟩
  intro v hv
  simp only [ratioField]
  rw [if_neg hv]

/-- Claim C6 witness: a metadata set holding `trailingPE = 0` renders
the sentinel, exactly like the missing key would. -/
theorem ratio_zero_vs_missing_witness :
    (fetch_market_data "t" ⟨Except.ok [("trailingPE", (0 : ℚ))], Except.ok [1]⟩).lookup
        "pe_ratio" =
      some (ratioField ([("trailingPE", (0 : ℚ))].lookup "trailingPE")) :=
  (ratio_zero_vs_missing "t" ⟨Except.ok [("trailingPE", (0 : ℚ))], Except.ok [1]⟩
    [("trailingPE", (0 : ℚ))] [1] rfl rfl (List.cons_ne_nil 1 [])).1

/-- Claim C7: when the metadata query raises but history is non-empty,
the fetcher still returns the success record (built over an empty
metadata set): every fundamental degrades to "N/A" while current price
and volatility are computed from the history as usual. -/
theorem metadata_failure_degrades (t : String) (p : Provider) (e : String)
    (closes : List ℚ) (hinfo : p.infoResult = Except.error e)
    (hh : p.histResult = Except.ok closes) (hne : closes ≠ []) :
    fetch_market_data t p = successRecord (normTicker t) [] closes ∧
    (fetch_market_data t p).lookup "market_cap" = some (PyVal.str "N/A") ∧
    (fetch_market_data t p).lookup "pe_ratio" = some (PyVal.str "N/A") ∧
    (fetch_market_data t p).lookup "forward_pe" = some (PyVal.str "N/A") ∧
    (fetch_market_data t p).lookup "revenue_growth" = some (PyVal.str "N/A") ∧
    (fetch_market_data t p).lookup "profit_margins" = some (PyVal.str "N/A") ∧
    (fetch_market_data t p).lookup "debt_to_equity" = some (PyVal.str "N/A") ∧
    (fetch_market_data t p).lookup "free_cash_flow" = some (PyVal.str "N/A") ∧
    (fetch_market_data t p).lookup "return_on_equity" = some (PyVal.str "N/A") ∧
    (fetch_market_data t p).lookup "current_price" =
      some (PyVal.num (round2 (closes.getLastD 0))) ∧
    (fetch_market_data t p).lookup "volatility_30d" = some (volField closes) := by
  have hfe : fetch_market_data t p = successRecord (normTicker t) [] closes := by
    simp [fetch_market_data, hh, hinfo, isEmpty_false_of_ne_nil hne]
  rw [hfe]
  exact ⟨rfl, rfl, rfl, rfl, rfl, rfl, rfl, rfl, rfl, rfl, rfl⟩

/-- Claim C7 witness: metadata raising, one close of 2. -/
theorem metadata_failure_degrades_witness :
    (fetch_market_data "t" ⟨Except.error "boom", Except.ok [(2 : ℚ)]⟩).lookup
        "market_cap" = some (PyVal.str "N/A") :=
  (metadata_failure_degrades "t" ⟨Except.error "boom", Except.ok [(2 : ℚ)]⟩ "boom"
    [2] rfl rfl (List.cons_ne_nil 2 [])).2.1

/-- Claim C9: the fetcher is deterministic — the result is a function
of the ticker and the provider responses alone, so two invocations
against the same upstream data agree. -/
theorem fetch_deterministic (t : String) (p : Provider)
    (r₁ r₂ : List (String × PyVal)) (h₁ : r₁ = fetch_market_data t p)
    (h₂ : r₂ = fetch_market_data t p) : r₁ = r₂ :=
  h₁.trans h₂.symm

/-- Claim C9 witness at a concrete invocation pair. -/
theorem fetch_deterministic_witness :
    fetch_market_data "t" ⟨Except.ok [], Except.ok [1]⟩ =
      fetch_market_data "t" ⟨Except.ok [], Except.ok [1]⟩ :=
  fetch_deterministic "t" ⟨Except.ok [], Except.ok [1]⟩ _ _ rfl rfl

/-- Claim C10: every fetch result is one of exactly two shapes — the
single-entry error record, or the twelve-key success record with no
"error" key — so the "error" key discriminates failure from success. -/
theorem fetch_result_shape (t : String) (p : Provider) :
    (∃ m, fetch_market_data t p = [("error", PyVal.str m)]) ∨
    ((fetch_market_data t p).map Prod.fst =
        ["ticker", "current_price", "volatility_30d", "market_cap", "pe_ratio",
         "forward_pe", "revenue_growth", "profit_margins", "debt_to_equity",
         "free_cash_flow", "return_on_equity", "history_df"] ∧
      (fetch_market_data t p).lookup "error" = Option.none) := by
  obtain ⟨ir, hr⟩ := p
  cases hr with
  | error e => exact Or.inl ⟨"Market data fetch failed: " ++ e, rfl⟩
  | ok closes =>
    cases closes with
    | nil => exact Or.inl ⟨"No price data available for ticker: " ++ normTicker t, rfl⟩
    | cons c cs => exact Or.inr ⟨rfl, rfl⟩

end MarketData
